import Mathlib

/-!
Verification development for the XWallet SafeSend risk-evaluation workers.

The repository contains two independently evolved evaluation engines:
* `src/unnamed/part_000` — the `runRiskEval` worker (namespace `WorkerA` below);
* `src/Safesend-worker/Worker.js` — the `/check` worker (namespace `WorkerB` below).

JavaScript semantics are modelled shallowly: JS numbers are exact rationals
(`JQ`, an unnormalized fraction) extended with `NaN`/`±Infinity` (`JSNum`);
the JS builtins used by the code (`Number`, `parseInt`, `Date.parse`,
`toLowerCase`, `trim`, `split`) are given executable models below.
-/

namespace JSPrim

/-- A JS finite numeric value, modelled as an exact unnormalized fraction.
`den` is positive for every value constructed in this development.  (The real
engine uses IEEE doubles; rounding never changes any comparison appearing in
the claims, so the exact model is used.) -/
structure JQ where
  num : Int
  den : Nat
deriving DecidableEq

def JQ.ofInt (i : Int) : JQ := ⟨i, 1⟩

def JQ.ltB (a b : JQ) : Bool := decide (a.num * (b.den : Int) < b.num * (a.den : Int))

def JQ.leB (a b : JQ) : Bool := decide (a.num * (b.den : Int) ≤ b.num * (a.den : Int))

def JQ.eqB (a b : JQ) : Bool := decide (a.num * (b.den : Int) = b.num * (a.den : Int))

def JQ.add (a b : JQ) : JQ := ⟨a.num * b.den + b.num * a.den, a.den * b.den⟩

def JQ.half (a : JQ) : JQ := ⟨a.num, a.den * 2⟩

/-- Multiply by a (possibly negative) power of ten, used for decimal exponents. -/
def JQ.mulPow10 (a : JQ) (e : Int) : JQ :=
  match e with
  | Int.ofNat k => ⟨a.num * (10 ^ k : Nat), a.den⟩
  | Int.negSucc k => ⟨a.num, a.den * 10 ^ (k + 1)⟩

/-- A JS number: finite value, `NaN`, or an infinity. -/
inductive JSNum where
  | fin (q : JQ)
  | nan
  | inf
  | ninf
deriving DecidableEq

/-- JS `<` on numbers: any comparison with `NaN` is false. -/
def JSNum.ltB : JSNum → JSNum → Bool
  | .nan, _ => false
  | _, .nan => false
  | .fin a, .fin b => a.ltB b
  | .fin _, .inf => true
  | .fin _, .ninf => false
  | .inf, _ => false
  | .ninf, .ninf => false
  | .ninf, _ => true

/-- JS `>` on numbers. -/
def JSNum.gtB (a b : JSNum) : Bool := JSNum.ltB b a

/-- JS truthiness of a number: `0`, `-0` and `NaN` are falsy. -/
def JSNum.truthy : JSNum → Bool
  | .fin q => !(q.eqB (JQ.ofInt 0))
  | .nan => false
  | .inf => true
  | .ninf => true

/-- ASCII lower-casing of one character (models JS `toLowerCase` on the
ASCII-only strings handled by the workers). -/
def lowerChar (c : Char) : Char :=
  if 65 ≤ c.toNat ∧ c.toNat ≤ 90 then Char.ofNat (c.toNat + 32) else c

/-- Model of JS `String.prototype.toLowerCase` (ASCII). -/
def jsToLowerCase (s : String) : String := ⟨s.data.map lowerChar⟩

def isJsSpace (c : Char) : Bool :=
  c = ' ' || c = '\t' || c = '\n' || c = '\r'

/-- Model of JS `String.prototype.trim`. -/
def jsTrim (s : String) : String :=
  ⟨((s.data.dropWhile isJsSpace).reverse.dropWhile isJsSpace).reverse⟩

def splitCommaAux : List Char → List Char → List String
  | [], acc => [⟨acc.reverse⟩]
  | c :: cs, acc =>
    if c = ',' then ⟨acc.reverse⟩ :: splitCommaAux cs [] else splitCommaAux cs (c :: acc)

/-- Model of JS `String.prototype.split(",")`. -/
def jsSplitComma (s : String) : List String := splitCommaAux s.data []

def isHexDigitChar (c : Char) : Bool :=
  c.isDigit || ('a' ≤ c && c ≤ 'f') || ('A' ≤ c && c ≤ 'F')

def isLowerHexChar (c : Char) : Bool :=
  c.isDigit || ('a' ≤ c && c ≤ 'f')

def digVal (c : Char) : Nat := c.toNat - 48

def hexVal (c : Char) : Nat :=
  if c.isDigit then c.toNat - 48
  else if 'a' ≤ c && c ≤ 'f' then c.toNat - 87
  else c.toNat - 55

def natOfDigits (b : Nat) (v : Char → Nat) (ds : List Char) : Nat :=
  ds.foldl (fun a c => a * b + v c) 0

/-- Exponent part of a JS decimal literal (after the `e`/`E`). -/
def parseExp (cs : List Char) : Option Int :=
  let p : Int × List Char :=
    match cs with
    | '+' :: t => (1, t)
    | '-' :: t => (-1, t)
    | t => (1, t)
  let s := p.2.span Char.isDigit
  if s.1.isEmpty || !s.2.isEmpty then none
  else some (p.1 * (natOfDigits 10 digVal s.1 : Nat))

/-- Body of an unsigned JS decimal literal: digits, optional fraction,
optional exponent. -/
def parseDecBody (cs : List Char) : Option JQ :=
  let ip := cs.span Char.isDigit
  let fp : List Char × List Char :=
    match ip.2 with
    | '.' :: t => t.span Char.isDigit
    | r => ([], r)
  if ip.1.isEmpty && fp.1.isEmpty then none
  else
    let mant : JQ :=
      ⟨(natOfDigits 10 digVal ip.1 * 10 ^ fp.1.length + natOfDigits 10 digVal fp.1 : Nat),
        (10 ^ fp.1.length : Nat)⟩
    match fp.2 with
    | [] => some mant
    | 'e' :: t => (parseExp t).map (JQ.mulPow10 mant)
    | 'E' :: t => (parseExp t).map (JQ.mulPow10 mant)
    | _ => none

def parseRadix (p : Char → Bool) (v : Char → Nat) (b : Nat) (cs : List Char) : Option JQ :=
  let s := cs.span p
  if s.1.isEmpty || !s.2.isEmpty then none
  else some ⟨(natOfDigits b v s.1 : Nat), 1⟩

def parseUnsignedNum (cs : List Char) : Option JSNum :=
  if cs = ['I', 'n', 'f', 'i', 'n', 'i', 't', 'y'] then some .inf
  else (parseDecBody cs).map .fin

def isBinDigitChar (c : Char) : Bool := c = '0' || c = '1'

def isOctDigitChar (c : Char) : Bool := '0' ≤ c && c ≤ '7'

/-- Model of the JS builtin `Number()` applied to a string. -/
def jsToNumber (s : String) : JSNum :=
  match (jsTrim s).data with
  | [] => .fin (JQ.ofInt 0)
  | '0' :: 'x' :: rest => ((parseRadix isHexDigitChar hexVal 16 rest).map JSNum.fin).getD .nan
  | '0' :: 'X' :: rest => ((parseRadix isHexDigitChar hexVal 16 rest).map JSNum.fin).getD .nan
  | '0' :: 'b' :: rest => ((parseRadix isBinDigitChar digVal 2 rest).map JSNum.fin).getD .nan
  | '0' :: 'B' :: rest => ((parseRadix isBinDigitChar digVal 2 rest).map JSNum.fin).getD .nan
  | '0' :: 'o' :: rest => ((parseRadix isOctDigitChar digVal 8 rest).map JSNum.fin).getD .nan
  | '0' :: 'O' :: rest => ((parseRadix isOctDigitChar digVal 8 rest).map JSNum.fin).getD .nan
  | '+' :: rest => (parseUnsignedNum rest).getD .nan
  | '-' :: rest =>
    match parseUnsignedNum rest with
    | some (.fin q) => .fin ⟨-q.num, q.den⟩
    | some .inf => .ninf
    | _ => .nan
  | cs => (parseUnsignedNum cs).getD .nan

/-- Model of the JS builtin `parseInt(s, 16)`: `none` models `NaN`. -/
def jsParseInt16 (s : String) : Option Int :=
  let p : Int × List Char :=
    match (jsTrim s).data with
    | '+' :: t => (1, t)
    | '-' :: t => (-1, t)
    | t => (1, t)
  let cs :=
    match p.2 with
    | '0' :: 'x' :: t => t
    | '0' :: 'X' :: t => t
    | t => t
  let ds := (cs.span isHexDigitChar).1
  if ds.isEmpty then none else some (p.1 * (natOfDigits 16 hexVal ds : Nat))

/-- Days since 1970-01-01 of a Gregorian date (standard civil-days formula). -/
def daysFromCivil (y m d : Nat) : Int :=
  let y1 := if m ≤ 2 then y - 1 else y
  let era := y1 / 400
  let yoe := y1 % 400
  let mp := if m > 2 then m - 3 else m + 9
  let doy := (153 * mp + 2) / 5 + d - 1
  let doe := yoe * 365 + yoe / 4 - yoe / 100 + doy
  ((era * 146097 + doe : Nat) : Int) - 719468

def isLeapYear (y : Nat) : Bool := y % 4 = 0 && (y % 100 ≠ 0 || y % 400 = 0)

def monthLen (y m : Nat) : Nat :=
  if m = 2 then (if isLeapYear y then 29 else 28)
  else if m = 4 || m = 6 || m = 9 || m = 11 then 30
  else 31

/-- Strict parser for the ISO-8601 UTC timestamps returned by the provider:
`YYYY-MM-DDTHH:MM:SSZ` or `YYYY-MM-DDTHH:MM:SS.mmmZ`.  Result in epoch ms. -/
def isoParse : List Char → Option Int
  | y1 :: y2 :: y3 :: y4 :: '-' :: m1 :: m2 :: '-' :: d1 :: d2 :: 'T' ::
      h1 :: h2 :: ':' :: n1 :: n2 :: ':' :: s1 :: s2 :: rest =>
    if y1.isDigit && y2.isDigit && y3.isDigit && y4.isDigit && m1.isDigit && m2.isDigit &&
        d1.isDigit && d2.isDigit && h1.isDigit && h2.isDigit && n1.isDigit && n2.isDigit &&
        s1.isDigit && s2.isDigit then
      let y := natOfDigits 10 digVal [y1, y2, y3, y4]
      let mo := natOfDigits 10 digVal [m1, m2]
      let da := natOfDigits 10 digVal [d1, d2]
      let h := natOfDigits 10 digVal [h1, h2]
      let mi := natOfDigits 10 digVal [n1, n2]
      let ss := natOfDigits 10 digVal [s1, s2]
      let msTail : Option Nat :=
        match rest with
        | ['Z'] => some 0
        | ['.', a, b, c, 'Z'] =>
          if a.isDigit && b.isDigit && c.isDigit then
            some (digVal a * 100 + digVal b * 10 + digVal c)
          else none
        | _ => none
      match msTail with
      | none => none
      | some msv =>
        if 1 ≤ mo && mo ≤ 12 && 1 ≤ da && da ≤ monthLen y mo && h ≤ 23 && mi ≤ 59 && ss ≤ 59 then
          some (daysFromCivil y mo da * 86400000 + (h * 3600000 + mi * 60000 + ss * 1000 + msv : Nat))
        else none
    else none
  | _ => none

/-- Model of the JS builtin `Date.parse` on the provider's ISO-8601 UTC
timestamp format; any other string is modelled as unparsable (`none` = `NaN`),
matching `Date.parse` on non-date strings. -/
def jsDateParse (s : String) : Option Int := isoParse s.data

end JSPrim


/-! ## Worker A: `src/unnamed/part_000` (`runRiskEval` engine) -/

namespace WorkerA

open JSPrim

/-- A raw provider `value` field: absent (`null`/`undefined`), a JSON number,
or a string. -/
inductive RawVal where
  | null
  | num (q : JQ)
  | str (s : String)
deriving DecidableEq

/-- A raw provider transfer record (`metadata.blockTimestamp` flattened into
`blockTimestamp`). -/
structure RawTransfer where
  hash : Option String
  fromAddr : Option String
  toAddr : Option String
  value : RawVal
  blockTimestamp : Option String
deriving DecidableEq

/-- A normalized transfer, the result of `normalizeTransfer`.  `valueEth` is
`none` for JS `null`; `timestamp` is finite epoch ms (0 = unknown). -/
structure Transfer where
  hash : String
  fromAddr : String
  toAddr : String
  valueEth : Option JSNum
  timestamp : Int
deriving DecidableEq

/-- `normalizeTransfer` (part_000 lines 189-200). -/
def normalizeTransfer (t : RawTransfer) : Transfer :=
  -- const ts = t?.metadata?.blockTimestamp ? Date.parse(t.metadata.blockTimestamp) : 0;
  let ts : Option Int :=
    match t.blockTimestamp with
    | some b => if b ≠ "" then jsDateParse b else some 0
    | none => some 0
  -- const valueEth = t?.value != null ? Number(t.value) : null;
  let valueEth : Option JSNum :=
    match t.value with
    | .null => none
    | .num q => some (.fin q)
    | .str s => some (jsToNumber s)
  { hash := t.hash.getD ""                      -- t?.hash || ''
    fromAddr := jsToLowerCase (t.fromAddr.getD "")
    toAddr := jsToLowerCase (t.toAddr.getD "")
    valueEth := valueEth
    timestamp := ts.getD 0 }                    -- Number.isFinite(ts) ? ts : 0

/-- `hexToInt` (part_000 lines 202-204): `parseInt(h, 16) || 0`.  `parseInt`
never throws, so the `try`/`catch` is inert; `NaN` (and `0` itself) collapse
to `0`. -/
def hexToInt (h : String) : Int := (jsParseInt16 h).getD 0

/-- `countWithin` (lines 206-209).  `(t.timestamp || 0)` is the identity on the
finite integer timestamps produced by `normalizeTransfer`. -/
def countWithin (list : List Transfer) (windowMs : Int) (now : Int) : Nat :=
  (list.filter (fun t => decide (t.timestamp ≥ now - windowMs))).length

def natDigits : Nat → Nat → List Char
  | 0, _ => []
  | _ + 1, 0 => []
  | fuel + 1, n => natDigits fuel (n / 10) ++ [Char.ofNat (n % 10 + 48)]

def natToStr (n : Nat) : String := if n = 0 then "0" else ⟨natDigits n n⟩

def padLeftZeros (s : List Char) (k : Nat) : List Char :=
  List.replicate (k - s.length) '0' ++ s

/-- Render `v / 10^6` with exactly six decimals (the shape of `toFixed(6)`). -/
def fixed6Str (v : Int) : String :=
  let sign := if v < 0 then "-" else ""
  let n := v.natAbs
  sign ++ natToStr (n / 1000000) ++ "." ++ ⟨padLeftZeros (natToStr (n % 1000000)).data 6⟩

/-- `round(q * 10^6)` with ties toward plus infinity, as JS `toFixed`. -/
def roundHalfUpScaled (q : JQ) : Int :=
  Int.fdiv (q.num * 2000000 + q.den) (2 * q.den)

/-- Model of JS `Number.prototype.toFixed(6)` as used for the repeat-amount
key (`NaN.toFixed(6)` is the string `"NaN"`). -/
def jsToFixed6 : JSNum → String
  | .fin q => fixed6Str (roundHalfUpScaled q)
  | .nan => "NaN"
  | .inf => "Infinity"
  | .ninf => "-Infinity"

/-- Insertion-ordered counting map (models the JS `Map` in `repeatedAmounts`). -/
def bumpKey : List (String × Nat) → String → List (String × Nat)
  | [], k => [(k, 1)]
  | (k0, n) :: rest, k =>
    if k0 = k then (k0, n + 1) :: rest else (k0, n) :: bumpKey rest k

/-- `repeatedAmounts` (lines 211-224). -/
def repeatedAmounts (list : List Transfer) : Nat × String :=
  let counts := list.foldl (fun m t =>
    match t.valueEth with
    | none => m
    | some v => bumpKey m (jsToFixed6 v)) []
  counts.foldl (fun best kv => if kv.2 > best.1 then (kv.2, kv.1) else best) (0, "")

/-- `freshInThenOut` (lines 226-232). -/
def freshInThenOut (inbound outbound : List Transfer) (windowMs : Int) : Bool :=
  match inbound, outbound with
  | [], _ => false
  | _, [] => false
  | latestIn :: _, _ =>
    match outbound.find? (fun o => decide (o.timestamp ≥ latestIn.timestamp)) with
    | none => false
    | some firstOutAfter => decide (firstOutAfter.timestamp - latestIn.timestamp ≤ windowMs)

/-- A factor, `{ severity, label, reason }`. -/
structure Factor where
  severity : String
  label : String
  reason : String
deriving DecidableEq

def factor (severity label reason : String) : Factor := ⟨severity, label, reason⟩

/-- An address accepted into a config list: `/^0x[a-f0-9]{40}$/`. -/
def isCsvAddr (s : String) : Bool :=
  match s.data with
  | '0' :: 'x' :: rest => rest.length = 40 && rest.all isLowerHexChar
  | _ => false

/-- `parseCsvList` (lines 238-246).  The JS `Set` is modelled as a list; only
membership is ever used. -/
def parseCsvList (s : Option String) : List String :=
  match s with
  | none => []
  | some str =>
    if str = "" then []
    else ((jsSplitComma str).map (fun p => jsToLowerCase (jsTrim p))).filter isCsvAddr

/-- Blocklist heuristic (lines 118-121). -/
def blocklistFactors (BADLIST : List String) (address : String) : List Factor :=
  if BADLIST.contains (jsToLowerCase address) then
    [factor "high" "On blocklist" "Recipient is present in a locally configured blocklist."]
  else []

/-- Contract heuristic (lines 123-127): `isContract = (code && code !== '0x')`. -/
def contractFactors (code : String) : List Factor :=
  if code ≠ "" && code ≠ "0x" then
    [factor "medium" "Contract address" "Recipient is a contract (non-EOA)."]
  else []

/-- Nonce heuristic (lines 129-135). -/
def nonceFactors (nonce : String) : List Factor :=
  let txCount := hexToInt nonce
  if txCount = 0 then
    [factor "medium" "New address" "Recipient has no prior transactions (nonce 0)."]
  else if txCount < 3 then
    [factor "low" "Very low activity" "Recipient has very limited on-chain activity."]
  else []

/-- Outbound burst heuristic (lines 137-143). -/
def burstFactors (out : List Transfer) (now : Int) : List Factor :=
  let burst24 := countWithin out (24 * 60 * 60 * 1000) now
  if burst24 ≥ 10 then
    [factor "high" "High-frequency outbounds"
      ("~" ++ natToStr burst24 ++ " outgoing transfers in last 24h.")]
  else if burst24 ≥ 5 then
    [factor "medium" "Frequent outbounds"
      ("~" ++ natToStr burst24 ++ " outgoing transfers in last 24h.")]
  else []

/-- `(t.valueEth ?? 0) > 0 && t.valueEth < 0.0005` (JS `null` coerces to `0`
in `<`; any comparison with `NaN` is false). -/
def isTinyInbound (t : Transfer) : Bool :=
  JSNum.gtB (t.valueEth.getD (.fin (JQ.ofInt 0))) (.fin (JQ.ofInt 0)) &&
    JSNum.ltB (t.valueEth.getD (.fin (JQ.ofInt 0))) (.fin ⟨5, 10000⟩)

/-- Dusting heuristic (lines 145-151). -/
def dustingFactors (inn : List Transfer) : List Factor :=
  let tiny := inn.filter isTinyInbound
  if tiny.length ≥ 6 then
    [factor "medium" "Dusting pattern" (natToStr tiny.length ++ " tiny inbound transfers observed.")]
  else if tiny.length ≥ 3 then
    [factor "low" "Possible dusting" (natToStr tiny.length ++ " tiny inbound transfers observed.")]
  else []

/-- Repeated-amount heuristic (lines 153-157). -/
def repeatedFactors (out : List Transfer) : List Factor :=
  let repeatOut := repeatedAmounts out
  if repeatOut.1 ≥ 8 then
    [factor "medium" "Repeated equal amounts"
      ("Outbound transfers show repeated amount " ++ repeatOut.2 ++ " ETH.")]
  else []

/-- Fresh-in-then-fast-out heuristic (lines 159-163). -/
def quickOutFactors (inn out : List Transfer) : List Factor :=
  if freshInThenOut inn out (10 * 60 * 1000) then
    [factor "high" "Fresh funds → fast outflow" "Outbound occurred shortly after inbound (≤10m)."]
  else []

/-- Watchlist heuristic (lines 165-170).  `(t.from || '')` is the identity on
the strings produced by `normalizeTransfer`. -/
def watchFactors (DUST_WATCH : List String) (inn out : List Transfer) : List Factor :=
  if inn.any (fun t => DUST_WATCH.contains (jsToLowerCase t.fromAddr)) ||
      out.any (fun t => DUST_WATCH.contains (jsToLowerCase t.toAddr)) then
    [factor "low" "Dust watchlist touch" "History includes interaction with a watched address."]
  else []

/-- Score contribution of one factor (lines 174-178): three independent `if`s
over the severity string. -/
def sevDelta (f : Factor) : Int :=
  (if f.severity = "high" then 25 else 0) +
  (if f.severity = "medium" then 12 else 0) +
  (if f.severity = "low" then 6 else 0)

/-- `Math.max(0, Math.min(100, Math.round(score)))`; `Math.round` is the
identity because every contribution is an integer. -/
def clampScore (s : Int) : Int := max 0 (min 100 s)

structure Assessment where
  score : Int
  decision : String
  factors : List Factor
deriving DecidableEq

/-- The factor list of `runRiskEval`, in source order (lines 116-170). -/
def evalFactors (BADLIST DUST_WATCH : List String) (address code nonce : String)
    (out inn : List Transfer) (now : Int) : List Factor :=
  blocklistFactors BADLIST address ++ contractFactors code ++ nonceFactors nonce ++
    burstFactors out now ++ dustingFactors inn ++ repeatedFactors out ++
    quickOutFactors inn out ++ watchFactors DUST_WATCH inn out

/-- The aggregation (lines 172-180): base 10, severity deltas, blocklist
floor, clamp. -/
def aggregate (BADLIST : List String) (address : String) (factors : List Factor) : Int :=
  let score0 : Int := 10 + (factors.map sevDelta).sum
  let score1 := if BADLIST.contains (jsToLowerCase address) then max score0 95 else score0
  clampScore score1

/-- The pure core of `runRiskEval` after the four lookups resolved
(lines 113-184). -/
def runRiskEvalCore (BADLIST DUST_WATCH : List String) (address code nonce : String)
    (out inn : List Transfer) (now : Int) : Assessment :=
  let factors := evalFactors BADLIST DUST_WATCH address code nonce out inn now
  let score := aggregate BADLIST address factors
  { score := score
    decision := if score ≥ 60 then "block" else "allow"
    factors := factors }

structure Env where
  ALCHEMY_SEPOLIA_URL : Option String
  BADLIST : Option String
  DUST_WATCHLIST : Option String

/-- Result shape of `alchemy_getAssetTransfers`. -/
structure TransfersResult where
  transfers : Option (List RawTransfer)
deriving DecidableEq

/-- `.catch(() => ({ transfers: [] }))` followed by `(x?.transfers || [])`:
a failed transfer lookup degrades to the empty list. -/
def transfersOf (res : Except String TransfersResult) : List RawTransfer :=
  match res with
  | .ok r => r.transfers.getD []
  | .error _ => []

/-- `runRiskEval` (lines 78-185) over already-settled lookup results.  The
bytecode and nonce lookups carry no `.catch`, so their failure rejects the
whole `Promise.all`. -/
def runRiskEval (env : Env) (address : String) (codeRes nonceRes : Except String String)
    (outRes inRes : Except String TransfersResult) (now : Int) :
    Except String Assessment :=
  match env.ALCHEMY_SEPOLIA_URL with
  | none => .error "missing_ALCHEMY_SEPOLIA_URL"
  | some u =>
    if u = "" then .error "missing_ALCHEMY_SEPOLIA_URL"       -- `if (!ALCHEMY)`
    else
    match codeRes with
    | .error e => .error e
    | .ok code =>
      match nonceRes with
      | .error e => .error e
      | .ok nonce =>
        let BADLIST := parseCsvList env.BADLIST
        let DUST_WATCH := parseCsvList env.DUST_WATCHLIST
        let out := (transfersOf outRes).map normalizeTransfer
        let inn := (transfersOf inRes).map normalizeTransfer
        .ok (runRiskEvalCore BADLIST DUST_WATCH address code nonce out inn now)

inductive CheckResponse where
  | ok (a : Assessment)
  | err (status : Nat) (code : String)
deriving DecidableEq

/-- `/^0x[a-fA-F0-9]{40}$/`. -/
def isAddressFormat (s : String) : Bool :=
  match s.data with
  | '0' :: 'x' :: rest => rest.length = 40 && rest.all isHexDigitChar
  | _ => false

/-- The `/check` route of the worker `fetch` handler (lines 12-29). -/
def handleCheck (addressParam chainParam : Option String) (env : Env)
    (codeRes nonceRes : Except String String)
    (outRes inRes : Except String TransfersResult) (now : Int) : CheckResponse :=
  let address := jsTrim (addressParam.getD "")
  let chain := jsToLowerCase (match chainParam with
    | some c => if c = "" then "sepolia" else c
    | none => "sepolia")
  if !isAddressFormat address then .err 400 "invalid_address"
  else if chain ≠ "sepolia" then .err 400 "unsupported_chain"
  else
    match runRiskEval env address codeRes nonceRes outRes inRes now with
    | .ok a => .ok a
    | .error _ => .err 500 "server_error"

/-- The JSON-RPC request body built by `rpc` (lines 58-64), restricted to the
fields that depend on the call: the randomly drawn `id` and the method. -/
structure RpcRequest where
  jsonrpc : String
  id : Nat
  method : String
deriving DecidableEq

/-- The four request bodies issued by one evaluation, with their random ids. -/
def rpcRequests (id1 id2 id3 id4 : Nat) : List RpcRequest :=
  [⟨"2.0", id1, "eth_getCode"⟩, ⟨"2.0", id2, "eth_getTransactionCount"⟩,
   ⟨"2.0", id3, "alchemy_getAssetTransfers"⟩, ⟨"2.0", id4, "alchemy_getAssetTransfers"⟩]

/-- One evaluation together with the requests it issues: the random ids enter
the request bodies only; the assessment is a function of the responses. -/
def runRiskEvalWithIds (id1 id2 id3 id4 : Nat) (env : Env) (address : String)
    (codeRes nonceRes : Except String String)
    (outRes inRes : Except String TransfersResult) (now : Int) :
    List RpcRequest × Except String Assessment :=
  (rpcRequests id1 id2 id3 id4, runRiskEval env address codeRes nonceRes outRes inRes now)

end WorkerA


/-! ## Worker B: `src/Safesend-worker/Worker.js` (`/check` engine) -/

namespace WorkerB

open JSPrim

/-- Provider records have the same shape for both workers. -/
abbrev RawTransfer := WorkerA.RawTransfer

abbrev RawVal := WorkerA.RawVal

/-- A finding, `{ label, detail, level }` (Worker.js line 52). -/
structure Finding where
  label : String
  detail : String
  level : String
deriving DecidableEq

structure Env where
  ALCHEMY_SEPOLIA_RPC : Option String
  BADLIST_ADDRESSES : Option String
  BAD_ENS_NAMES : Option String
  /-- `JSON.parse(env.BAD_ENS_ADDRS || "{}")`, modelled as the parsed map;
  a parse failure yields the empty map (the `catch {}` branch). -/
  BAD_ENS_ADDRS : List (String × String)
  DUST_THRESHOLD_ETH : Option String

/-- `(env.X || "").toLowerCase().split(",").map(s => s.trim()).filter(Boolean)`
(Worker.js lines 16-25). -/
def parseEnvList (s : Option String) : List String :=
  ((jsSplitComma (jsToLowerCase (s.getD ""))).map jsTrim).filter (fun x => x ≠ "")

/-- JS object property lookup on the parsed `BAD_ENS_ADDRS` map. -/
def lookupStr : List (String × String) → String → Option String
  | [], _ => none
  | (k, v) :: rest, key => if k = key then some v else lookupStr rest key

/-- The value of `recentMs t` — a JS number that is an integer or `NaN`. -/
inductive TimeVal where
  | fin (ms : Int)
  | nan
deriving DecidableEq

/-- `recentMs` (line 104): `t?.metadata?.blockTimestamp ?
Date.parse(t.metadata.blockTimestamp) : 0`. -/
def recentMs (t : RawTransfer) : TimeVal :=
  match t.blockTimestamp with
  | some b =>
    if b ≠ "" then
      match jsDateParse b with
      | some v => .fin v
      | none => .nan
    else .fin 0
  | none => .fin 0

/-- `Math.max` on two values (`NaN` absorbs). -/
def tmax2 : TimeVal → TimeVal → TimeVal
  | .nan, _ => .nan
  | _, .nan => .nan
  | .fin a, .fin b => .fin (max a b)

/-- `Math.min` on two values (`NaN` absorbs). -/
def tmin2 : TimeVal → TimeVal → TimeVal
  | .nan, _ => .nan
  | _, .nan => .nan
  | .fin a, .fin b => .fin (min a b)

/-- `Math.max(...list)` for the nonempty lists it is applied to. -/
def tmaxOf : List TimeVal → TimeVal
  | [] => .fin 0
  | x :: xs => xs.foldl tmax2 x

/-- `Math.min(...list)` for the nonempty lists it is applied to. -/
def tminOf : List TimeVal → TimeVal
  | [] => .fin 0
  | x :: xs => xs.foldl tmin2 x

/-- `X ? (Date.now() - X) / 86400000 : null` (lines 107-108): `0` and `NaN`
are falsy, so the result is `null` for them; otherwise the exact quotient. -/
def daysSince (now : Int) : TimeVal → Option JQ
  | .fin i => if i ≠ 0 then some ⟨now - i, 86400000⟩ else none
  | .nan => none

/-- JS `<` against an integer literal where the left side may be `null`
(`null` coerces to `+0`). -/
def nullableLtB (x : Option JQ) (c : Int) : Bool :=
  (x.getD (JQ.ofInt 0)).ltB (JQ.ofInt c)

/-- JS `>` against an integer literal where the left side may be `null`. -/
def nullableGtB (x : Option JQ) (c : Int) : Bool :=
  (JQ.ofInt c).ltB (x.getD (JQ.ofInt 0))

/-- `parseEth` (line 141): `typeof v === "number" ? v : v ? Number(v) : 0`. -/
def parseEth : RawVal → JSNum
  | .num q => .fin q
  | .null => .fin (JQ.ofInt 0)
  | .str s => if s = "" then .fin (JQ.ofInt 0) else jsToNumber s

/-- `Number.isFinite` as the filter used on incoming values. -/
def finitePart : JSNum → Option JQ
  | .fin q => some q
  | _ => none

def insertAsc (x : JQ) : List JQ → List JQ
  | [] => [x]
  | y :: ys => if x.leB y then x :: y :: ys else y :: insertAsc x ys

/-- `incomingValues.sort((a, b) => a - b)`. -/
def sortAsc (l : List JQ) : List JQ := l.foldr insertAsc []

def startsWith : List Char → List Char → Bool
  | [], _ => true
  | _ :: _, [] => false
  | p :: ps, c :: cs => p = c && startsWith ps cs

def containsSeq (pat : List Char) : List Char → Bool
  | [] => startsWith pat []
  | c :: cs => startsWith pat (c :: cs) || containsSeq pat cs

def intToStr (i : Int) : String :=
  (if i < 0 then "-" else "") ++ WorkerA.natToStr i.natAbs

/-- Display form of a JS number for string interpolation.  (JS prints a
decimal expansion; no claim depends on this text, only on labels/levels.) -/
def jsNumToStr : JSNum → String
  | .fin q => if q.den = 1 then intToStr q.num else intToStr q.num ++ "/" ++ WorkerA.natToStr q.den
  | .nan => "NaN"
  | .inf => "Infinity"
  | .ninf => "-Infinity"

/-- Blocklist finding (lines 57-58): weight 90, no floor. -/
def blocklistSection (BADLIST_ADDRESSES : List String) (addr : String) : List (Finding × Int) :=
  if BADLIST_ADDRESSES.contains (jsToLowerCase addr) then
    [(⟨"Blocklisted", "Address appears on internal blocklist.", "high"⟩, 90)]
  else []

/-- Negative ENS association (lines 59-65); fires on a truthy map value. -/
def ensAddrSection (BAD_ENS_ADDRS : List (String × String)) (addr : String) :
    List (Finding × Int) :=
  match lookupStr BAD_ENS_ADDRS (jsToLowerCase addr) with
  | some v =>
    if v ≠ "" then [(⟨"Negative ENS link", "Associated with " ++ v, "high"⟩, 25)] else []
  | none => []

/-- Bytecode findings (lines 67-84).  The lookup sits in its own
`try`/`catch`: failure degrades to the zero-weight `Unknown type` finding. -/
def bytecodeSection (codeRes : Except String String) : List (Finding × Int) :=
  match codeRes with
  | .ok bytecode =>
    if bytecode ≠ "" && bytecode ≠ "0x" then
      [(⟨"Contract", "Recipient is a contract address.", "medium"⟩, 10)] ++
      (if containsSeq ['3', '6', '3', 'd', '3', 'd'] (jsToLowerCase ⟨bytecode.data.drop 2⟩).data
       then [(⟨"Proxy pattern", "EIP-1167 minimal proxy detected.", "medium"⟩, 6)] else []) ++
      (if bytecode.length < 200 then
        [(⟨"Tiny bytecode", "Contract runtime is unusually short.", "medium"⟩, 6)] else [])
    else [(⟨"EOA", "Recipient is an externally owned address.", "low"⟩, 0)]
  | .error _ => [(⟨"Unknown type", "Could not verify contract/EOA.", "low"⟩, 0)]

/-- The `daysSinceFirst` tier chain (lines 113-118): a single `if`/`else if`
cascade, so at most one tier can be produced. -/
def ageTierSub (daysSinceFirst : Option JQ) : List (Finding × Int) :=
  if nullableLtB daysSinceFirst 1 then
    [(⟨"New address", "First seen < 24h.", "high"⟩, 28)]
  else if nullableLtB daysSinceFirst 7 then
    [(⟨"Newish address", "First seen < 7d.", "medium"⟩, 18)]
  else if nullableLtB daysSinceFirst 30 then
    [(⟨"Recent address", "First seen < 30d.", "low"⟩, 8)]
  else []

/-- Lines 120-121. -/
def lowActivitySub (total : Nat) : List (Finding × Int) :=
  if total < 5 then [(⟨"Low activity", "Fewer than 5 total transfers.", "medium"⟩, 10)] else []

/-- Lines 122-123. -/
def inboundOnlySub (outs : List RawTransfer) : List (Finding × Int) :=
  if outs.length = 0 then [(⟨"Inbound only", "No outbound history.", "low"⟩, 6)] else []

/-- Lines 125-129. -/
def fanOutSub (outs : List RawTransfer) : List (Finding × Int) :=
  let uniqueRecipients :=
    ((outs.map (fun t => jsToLowerCase (t.toAddr.getD ""))).filter (fun x => x ≠ "")).dedup
  if uniqueRecipients.length ≥ 10 then
    [(⟨"Fan-out", WorkerA.natToStr uniqueRecipients.length ++ " distinct recent recipients.",
        "high"⟩, 18)]
  else []

/-- Lines 131-139. -/
def inboundBurstSub (outs ins : List RawTransfer) : List (Finding × Int) :=
  let senders := (ins.map (fun t => jsToLowerCase (t.fromAddr.getD ""))).filter (fun x => x ≠ "")
  if ins.length ≥ 5 && senders.dedup.length ≥ 5 && outs.length = 0 then
    [(⟨"Inbound burst", "Many unique inbound senders, no outbound history.", "medium"⟩, 10)]
  else []

/-- Lines 141-157. -/
def dustingMedianSub (DUST : JSNum) (ins : List RawTransfer) : List (Finding × Int) :=
  let incomingValues := sortAsc ((ins.map (fun t => parseEth t.value)).filterMap finitePart)
  if incomingValues.length ≥ 3 then
    let mid := incomingValues.length / 2
    let median :=
      if incomingValues.length % 2 = 1 then incomingValues.getD mid (JQ.ofInt 0)
      else ((incomingValues.getD (mid - 1) (JQ.ofInt 0)).add
        (incomingValues.getD mid (JQ.ofInt 0))).half
    if (JQ.ofInt 0).ltB median && JSNum.ltB (.fin median) DUST then
      [(⟨"Dusting", "Median inbound < " ++ jsNumToStr DUST ++ " ETH.", "medium"⟩, 12)]
    else []
  else []

/-- Lines 159-160. -/
def dormantSub (daysSinceLatest : Option JQ) : List (Finding × Int) :=
  if nullableGtB daysSinceLatest 180 then
    [(⟨"Dormant", "Last activity > 180 days ago. Slightly safer.", "low"⟩, -5)]
  else []

/-- Transfer-history findings (lines 102-161). -/
def historySection (DUST : JSNum) (outs ins : List RawTransfer) (now : Int) :
    List (Finding × Int) :=
  let all := outs ++ ins
  let latestTs := if all.length = 0 then TimeVal.fin 0 else tmaxOf (all.map recentMs)
  let firstTs := if all.length = 0 then TimeVal.fin 0 else tminOf (all.map recentMs)
  let daysSinceFirst := daysSince now firstTs
  let daysSinceLatest := daysSince now latestTs
  if all.length = 0 then
    [(⟨"No history", "No transactions found on Sepolia.", "medium"⟩, 22)]
  else
    ageTierSub daysSinceFirst ++ lowActivitySub all.length ++ inboundOnlySub outs ++
      fanOutSub outs ++ inboundBurstSub outs ins ++ dustingMedianSub DUST ins ++
      dormantSub daysSinceLatest

/-- ENS-name finding (lines 163-166); the `?ens=` query value is truthy. -/
def ensNameSection (BAD_ENS_NAMES : List String) (ens : String) : List (Finding × Int) :=
  if ens ≠ "" && BAD_ENS_NAMES.contains (jsToLowerCase ens) then
    [(⟨"ENS flagged", ens ++ " has negative reputation.", "high"⟩, 20)]
  else []

/-- `Math.max(0, Math.min(100, score))` (line 169). -/
def clampScoreB (s : Int) : Int := max 0 (min 100 s)

structure ScoreFindings where
  score : Int
  findings : List Finding
deriving DecidableEq

/-- The whole finding/score accumulation of the `/check` handler: `score`
starts at 0 and each `addFinding` contributes its `delta`. -/
def checkCore (BADLIST_ADDRESSES BAD_ENS_NAMES : List String)
    (BAD_ENS_ADDRS : List (String × String)) (DUST : JSNum) (addr ens : String)
    (codeRes : Except String String) (outs ins : List RawTransfer) (now : Int) :
    ScoreFindings :=
  let fs := blocklistSection BADLIST_ADDRESSES addr ++ ensAddrSection BAD_ENS_ADDRS addr ++
    bytecodeSection codeRes ++ historySection DUST outs ins now ++
    ensNameSection BAD_ENS_NAMES ens
  { score := clampScoreB (fs.map (fun p => p.2)).sum
    findings := fs.map (fun p => p.1) }

inductive CheckResponse where
  | ok (r : ScoreFindings)
  | err (status : Nat) (code : String)
deriving DecidableEq

/-- The `/check` route (Worker.js lines 2-174) over settled lookup results.
The response carries `score` and `findings` only — no decision field. -/
def fetchCheck (env : Env) (addressParam chainParam ensParam : Option String)
    (codeRes : Except String String)
    (outRes inRes : Except String WorkerA.TransfersResult) (now : Int) : CheckResponse :=
  let addr := jsTrim (addressParam.getD "")
  let chain := jsToLowerCase (match chainParam with
    | some c => if c = "" then "sepolia" else c
    | none => "sepolia")
  if !WorkerA.isAddressFormat addr then .err 400 "bad_address"
  else if chain ≠ "sepolia" then .err 400 "unsupported_chain"
  else
    match env.ALCHEMY_SEPOLIA_RPC with
    | none => .err 500 "missing_ALCHEMY_SEPOLIA_RPC"
    | some u =>
      if u = "" then .err 500 "missing_ALCHEMY_SEPOLIA_RPC"
      else
        let BADLIST := parseEnvList env.BADLIST_ADDRESSES
        let ENSNAMES := parseEnvList env.BAD_ENS_NAMES
        let DUST := jsToNumber (match env.DUST_THRESHOLD_ETH with
          | some s => if s = "" then "0.00002" else s
          | none => "0.00002")
        let outs := WorkerA.transfersOf outRes
        let ins := WorkerA.transfersOf inRes
        let ens := ensParam.getD ""
        .ok (checkCore BADLIST ENSNAMES env.BAD_ENS_ADDRS DUST addr ens codeRes outs ins now)

end WorkerB


/-! ## Definitions supporting the claim statements -/

/-- The three mutually exclusive history-age tiers of Worker B. -/
def isAgeTier (f : WorkerB.Finding) : Bool :=
  f.label == "New address" || f.label == "Newish address" || f.label == "Recent address"

/-- Number of age-tier findings in a finding list. -/
def tierCount (fs : List WorkerB.Finding) : Nat := (fs.filter isAgeTier).length

/-- A normalized Worker-A transfer carrying only a timestamp (the other
fields are irrelevant to `freshInThenOut`). -/
def mkT (ts : Int) : WorkerA.Transfer := ⟨"", "", "", none, ts⟩

/-! ## Theorems -/

theorem clampScore_bounds (s : Int) :
    0 ≤ WorkerA.clampScore s ∧ WorkerA.clampScore s ≤ 100 := by
  unfold WorkerA.clampScore
  constructor <;> omega

theorem clampScoreB_bounds (s : Int) :
    0 ≤ WorkerB.clampScoreB s ∧ WorkerB.clampScoreB s ≤ 100 := by
  unfold WorkerB.clampScoreB
  constructor <;> omega

/-- C2: for every input (every combination of lookup results, configuration
and clock), the score produced by either engine is an integer (the model type
is `Int`, and every contribution is integral) lying in the closed interval
`[0, 100]`. -/
theorem score_in_range :
    (∀ BADLIST DUST_WATCH address code nonce out inn now,
      0 ≤ (WorkerA.runRiskEvalCore BADLIST DUST_WATCH address code nonce out inn now).score ∧
      (WorkerA.runRiskEvalCore BADLIST DUST_WATCH address code nonce out inn now).score ≤ 100) ∧
    (∀ BADLIST ENSNAMES ENSADDRS DUST addr ens codeRes outs ins now,
      0 ≤ (WorkerB.checkCore BADLIST ENSNAMES ENSADDRS DUST addr ens codeRes outs ins now).score ∧
      (WorkerB.checkCore BADLIST ENSNAMES ENSADDRS DUST addr ens codeRes outs ins
        now).score ≤ 100) := by
  constructor
  · intro BADLIST DUST_WATCH address code nonce out inn now
    exact clampScore_bounds _
  · intro BADLIST ENSNAMES ENSADDRS DUST addr ens codeRes outs ins now
    exact clampScoreB_bounds _

/-- C9: with the upstream responses, configuration and clock fixed, the
assessment component of an evaluation run is independent of the four randomly
drawn JSON-RPC request ids — they enter the outgoing request bodies only — so
repeated evaluation of the same address yields an identical assessment. -/
theorem assessment_independent_of_rpc_ids
    (i1 i2 i3 i4 j1 j2 j3 j4 : Nat) (env : WorkerA.Env) (address : String)
    (codeRes nonceRes : Except String String)
    (outRes inRes : Except String WorkerA.TransfersResult) (now : Int) :
    (WorkerA.runRiskEvalWithIds i1 i2 i3 i4 env address codeRes nonceRes outRes inRes now).2 =
      (WorkerA.runRiskEvalWithIds j1 j2 j3 j4 env address codeRes nonceRes outRes inRes now).2 :=
  rfl

theorem sevDelta_nonneg (f : WorkerA.Factor) : 0 ≤ WorkerA.sevDelta f := by
  unfold WorkerA.sevDelta
  split <;> split <;> split <;> omega

theorem sumSevDelta_nonneg (fs : List WorkerA.Factor) :
    0 ≤ (fs.map WorkerA.sevDelta).sum := by
  induction fs with
  | nil => simp
  | cons f fs ih =>
    simp only [List.map_cons, List.sum_cons]
    have := sevDelta_nonneg f
    omega

theorem aggregate_blocklisted (BADLIST : List String) (address : String)
    (factors : List WorkerA.Factor)
    (h : BADLIST.contains (JSPrim.jsToLowerCase address) = true) :
    95 ≤ WorkerA.aggregate BADLIST address factors := by
  unfold WorkerA.aggregate WorkerA.clampScore
  simp only [h, if_true]
  omega

/-- C1 (amended): in the `runRiskEval` engine a blocklist hit raises the score
to `max score 95` before clamping, so the returned score is at least 95 and
the decision is `block` regardless of every other factor.  (In the Worker.js
engine — see the counterexample — the blocklist is an ordinary weight-90
finding with no floor, and the response carries no decision at all.) -/
theorem blocklisted_floor_workerA (BADLIST DUST_WATCH : List String)
    (address code nonce : String) (out inn : List WorkerA.Transfer) (now : Int)
    (h : BADLIST.contains (JSPrim.jsToLowerCase address) = true) :
    95 ≤ (WorkerA.runRiskEvalCore BADLIST DUST_WATCH address code nonce out inn now).score ∧
    (WorkerA.runRiskEvalCore BADLIST DUST_WATCH address code nonce
      out inn now).decision = "block" := by
  have hs : 95 ≤ WorkerA.aggregate BADLIST address
      (WorkerA.evalFactors BADLIST DUST_WATCH address code nonce out inn now) :=
    aggregate_blocklisted _ _ _ h
  refine ⟨hs, ?_⟩
  show (if WorkerA.aggregate BADLIST address
      (WorkerA.evalFactors BADLIST DUST_WATCH address code nonce out inn now) ≥ 60
    then "block" else "allow") = "block"
  rw [if_pos (by omega)]

theorem blocklisted_floor_workerA_witness :
    ["0xaa"].contains (JSPrim.jsToLowerCase "0xAA") = true ∧
    95 ≤ (WorkerA.runRiskEvalCore ["0xaa"] [] "0xAA" "0x" "0x5" [] [] 0).score ∧
    (WorkerA.runRiskEvalCore ["0xaa"] [] "0xAA" "0x" "0x5" [] [] 0).decision = "block" :=
  ⟨by decide, blocklisted_floor_workerA ["0xaa"] [] "0xAA" "0x" "0x5" [] [] 0 (by decide)⟩

/-- C1 counterexample: in the Worker.js engine the blocklist finding carries
weight 90 with no floor, so a blocklisted address whose only other findings
are the zero-weight `EOA` finding and the `-5` `Dormant` finding scores 85,
below 95 (and the response has no `decision` field at all).  Input: address
on the blocklist, bytecode `"0x"`, one outbound and four inbound transfers of
1.0 ETH all timestamped 1970-01-02, evaluated at `now` = 182 days. -/
theorem blocklisted_below_95_workerB :
    (WorkerB.checkCore ["0xaa"] [] [] (.fin ⟨2, 100000⟩) "0xaa" "" (.ok "0x")
        [⟨none, some "0xaa", some "0xbb", .str "1.0", some "1970-01-02T00:00:00Z"⟩]
        [⟨none, some "0xcc", some "0xaa", .str "1.0", some "1970-01-02T00:00:00Z"⟩,
         ⟨none, some "0xcd", some "0xaa", .str "1.0", some "1970-01-02T00:00:00Z"⟩,
         ⟨none, some "0xce", some "0xaa", .str "1.0", some "1970-01-02T00:00:00Z"⟩,
         ⟨none, some "0xcf", some "0xaa", .str "1.0", some "1970-01-02T00:00:00Z"⟩]
        15724800000).score = 85 ∧
    ((WorkerB.checkCore ["0xaa"] [] [] (.fin ⟨2, 100000⟩) "0xaa" "" (.ok "0x")
        [⟨none, some "0xaa", some "0xbb", .str "1.0", some "1970-01-02T00:00:00Z"⟩]
        [⟨none, some "0xcc", some "0xaa", .str "1.0", some "1970-01-02T00:00:00Z"⟩,
         ⟨none, some "0xcd", some "0xaa", .str "1.0", some "1970-01-02T00:00:00Z"⟩,
         ⟨none, some "0xce", some "0xaa", .str "1.0", some "1970-01-02T00:00:00Z"⟩,
         ⟨none, some "0xcf", some "0xaa", .str "1.0", some "1970-01-02T00:00:00Z"⟩]
        15724800000).score < 95) := by
  constructor
  · decide
  · decide

/-- C10: `hexToInt` is total and returns 0 whenever `parseInt(s, 16)` is
`NaN`, so a successful transaction-count lookup that yields a malformed hex
string makes the evaluation treat the nonce as 0 and emit the medium-severity
`New address` factor instead of failing. -/
theorem malformed_nonce_new_address (s : String) (h : JSPrim.jsParseInt16 s = none)
    (BADLIST DUST_WATCH : List String) (address code : String)
    (out inn : List WorkerA.Transfer) (now : Int) :
    WorkerA.hexToInt s = 0 ∧
    ((WorkerA.runRiskEvalCore BADLIST DUST_WATCH address code s out inn now).factors.any
      (fun f => f.severity == "medium" && f.label == "New address")) = true := by
  have h0 : WorkerA.hexToInt s = 0 := by
    unfold WorkerA.hexToInt
    rw [h]
    rfl
  refine ⟨h0, ?_⟩
  have hn : WorkerA.nonceFactors s =
      [WorkerA.factor "medium" "New address"
        "Recipient has no prior transactions (nonce 0)."] := by
    simp [WorkerA.nonceFactors, h0]
  show ((WorkerA.evalFactors BADLIST DUST_WATCH address code s out inn now).any
      (fun f => f.severity == "medium" && f.label == "New address")) = true
  unfold WorkerA.evalFactors
  simp [List.any_append, hn, WorkerA.factor]

theorem malformed_nonce_new_address_witness :
    JSPrim.jsParseInt16 "zz" = none ∧
    WorkerA.hexToInt "zz" = 0 ∧
    ((WorkerA.runRiskEvalCore [] [] "0xaa" "0x" "zz" [] [] 0).factors.any
      (fun f => f.severity == "medium" && f.label == "New address")) = true :=
  ⟨by decide, malformed_nonce_new_address "zz" (by decide) [] [] "0xaa" "0x" [] [] 0⟩

/-- C4 (amended): the `runRiskEval` aggregation starts from the fixed nonzero
base 10 (an evaluation with no factors scores exactly 10), and the scenario
address — bytecode `"0x"`, nonce `0x0`, no transfers — yields exactly one
factor, the medium nonce-0 `New address` factor, scoring 10 + 12 = 22 with
decision `allow` under the fixed threshold 60.  (The spec example
`10 + 22 = 32` mixes this engine's base with the other engine's no-history
weight; see the counterexample.) -/
theorem base_ten_and_empty_history_scenario :
    (∀ BADLIST DUST_WATCH address code nonce out inn now,
      (WorkerA.runRiskEvalCore BADLIST DUST_WATCH address code nonce out inn now).factors = [] →
      (WorkerA.runRiskEvalCore BADLIST DUST_WATCH address code nonce out inn now).score = 10) ∧
    (∀ address now,
      WorkerA.runRiskEvalCore [] [] address "0x" "0x0" [] [] now =
        ⟨22, "allow",
         [WorkerA.factor "medium" "New address"
            "Recipient has no prior transactions (nonce 0)."]⟩) := by
  constructor
  · intro BADLIST DUST_WATCH address code nonce out inn now hfs
    have hfs' : WorkerA.evalFactors BADLIST DUST_WATCH address code nonce out inn now = [] := hfs
    have hsec := hfs'
    unfold WorkerA.evalFactors at hsec
    simp only [List.append_eq_nil] at hsec
    obtain ⟨h1, -⟩ := hsec
    have hb : BADLIST.contains (JSPrim.jsToLowerCase address) = false := by
      by_contra hc
      have hc' : BADLIST.contains (JSPrim.jsToLowerCase address) = true := by
        revert hc
        cases BADLIST.contains (JSPrim.jsToLowerCase address) <;> simp
      unfold WorkerA.blocklistFactors at h1
      rw [hc'] at h1
      simp at h1
    show WorkerA.aggregate BADLIST address
        (WorkerA.evalFactors BADLIST DUST_WATCH address code nonce out inn now) = 10
    rw [hfs']
    unfold WorkerA.aggregate WorkerA.clampScore
    have hb' : JSPrim.jsToLowerCase address ∉ BADLIST := by simpa using hb
    simp [hb']
    try omega
  · intro address now
    rfl

theorem base_ten_scenario_witness :
    (WorkerA.runRiskEvalCore [] [] "0xaa" "0x" "0x5" [] [] 0).score = 10 ∧
    WorkerA.runRiskEvalCore [] [] "0xaa" "0x" "0x0" [] [] 0 =
      ⟨22, "allow", [WorkerA.factor "medium" "New address"
        "Recipient has no prior transactions (nonce 0)."]⟩ :=
  ⟨base_ten_and_empty_history_scenario.1 [] [] "0xaa" "0x" "0x5" [] [] 0 (by decide),
   base_ten_and_empty_history_scenario.2 "0xaa" 0⟩

/-- C4 counterexample: the spec's scenario (bytecode `"0x"`, nonce 0, no
transfers) scores 22, not the claimed base + no-history 32: the base-10
engine has no `No history` finding (its nonce-0 factor is worth 12), and the
engine with the 22-point `No history` finding starts from base 0. -/
theorem scenario_score_22_not_32 :
    (WorkerA.runRiskEvalCore [] [] "0xaa" "0x" "0x0" [] [] 0).score = 22 ∧
    (WorkerA.runRiskEvalCore [] [] "0xaa" "0x" "0x0" [] [] 0).score ≠ 32 ∧
    (WorkerB.checkCore [] [] [] (.fin ⟨2, 100000⟩) "0xaa" "" (.ok "0x") [] [] 0).score = 22 := by
  refine ⟨by decide, by decide, by decide⟩

theorem runRiskEval_codeError (env : WorkerA.Env) (address e : String)
    (nonceRes : Except String String) (outRes inRes : Except String WorkerA.TransfersResult)
    (now : Int) (a : WorkerA.Assessment) :
    WorkerA.runRiskEval env address (.error e) nonceRes outRes inRes now ≠ .ok a := by
  rcases env with ⟨url, bl, wl⟩
  cases url with
  | none => simp [WorkerA.runRiskEval]
  | some u => by_cases hu : u = "" <;> simp [WorkerA.runRiskEval, hu]

theorem runRiskEval_nonceError (env : WorkerA.Env) (address code e : String)
    (outRes inRes : Except String WorkerA.TransfersResult)
    (now : Int) (a : WorkerA.Assessment) :
    WorkerA.runRiskEval env address (.ok code) (.error e) outRes inRes now ≠ .ok a := by
  rcases env with ⟨url, bl, wl⟩
  cases url with
  | none => simp [WorkerA.runRiskEval]
  | some u => by_cases hu : u = "" <;> simp [WorkerA.runRiskEval, hu]

/-- C3 (amended): in the `runRiskEval` worker a failed bytecode or nonce
lookup aborts the evaluation and the `/check` route surfaces it as
`500 server_error`, while a failed transfer lookup (either side) is exactly
equivalent to receiving an empty transfer list; the Worker.js variant instead
degrades a failed bytecode lookup to the zero-weight `Unknown type` finding
and completes (it performs no nonce lookup at all). -/
theorem required_and_besteffort_lookup_policy :
    (∀ (addressParam : String) (env : WorkerA.Env) (e : String) nonceRes outRes inRes
        (now : Int),
      WorkerA.isAddressFormat (JSPrim.jsTrim addressParam) = true →
      WorkerA.handleCheck (some addressParam) none env (.error e) nonceRes outRes inRes now =
        .err 500 "server_error") ∧
    (∀ (addressParam : String) (env : WorkerA.Env) (code e : String) outRes inRes (now : Int),
      WorkerA.isAddressFormat (JSPrim.jsTrim addressParam) = true →
      WorkerA.handleCheck (some addressParam) none env (.ok code) (.error e) outRes inRes now =
        .err 500 "server_error") ∧
    (∀ (env : WorkerA.Env) (address : String) codeRes nonceRes inRes (now : Int) (e : String),
      WorkerA.runRiskEval env address codeRes nonceRes (.error e) inRes now =
        WorkerA.runRiskEval env address codeRes nonceRes (.ok ⟨some []⟩) inRes now) ∧
    (∀ (env : WorkerA.Env) (address : String) codeRes nonceRes outRes (now : Int) (e : String),
      WorkerA.runRiskEval env address codeRes nonceRes outRes (.error e) now =
        WorkerA.runRiskEval env address codeRes nonceRes outRes (.ok ⟨some []⟩) now) ∧
    (∀ BADLIST ENSNAMES ENSADDRS DUST (addr ens e : String) outs ins (now : Int),
      ((WorkerB.checkCore BADLIST ENSNAMES ENSADDRS DUST addr ens (.error e) outs ins
        now).findings.any (fun f => f.label == "Unknown type")) = true) := by
  have hsep : JSPrim.jsToLowerCase "sepolia" = "sepolia" := by decide
  refine ⟨?_, ?_, ?_, ?_, ?_⟩
  · intro addressParam env e nonceRes outRes inRes now hvalid
    unfold WorkerA.handleCheck
    simp only [Option.getD_some, hvalid, hsep, Bool.not_true, Bool.false_eq_true, if_false,
      ne_eq, not_true_eq_false, if_true]
    cases hx : WorkerA.runRiskEval env (JSPrim.jsTrim addressParam) (.error e)
        nonceRes outRes inRes now with
    | ok a => exact absurd hx (runRiskEval_codeError env _ e nonceRes outRes inRes now a)
    | error m => simp
  · intro addressParam env code e outRes inRes now hvalid
    unfold WorkerA.handleCheck
    simp only [Option.getD_some, hvalid, hsep, Bool.not_true, Bool.false_eq_true, if_false,
      ne_eq, not_true_eq_false, if_true]
    cases hx : WorkerA.runRiskEval env (JSPrim.jsTrim addressParam) (.ok code)
        (.error e) outRes inRes now with
    | ok a => exact absurd hx (runRiskEval_nonceError env _ code e outRes inRes now a)
    | error m => simp
  · intro env address codeRes nonceRes inRes now e
    rcases env with ⟨url, bl, wl⟩
    cases url with
    | none => rfl
    | some u =>
      by_cases hu : u = "" <;> cases codeRes <;> cases nonceRes <;>
        simp [WorkerA.runRiskEval, WorkerA.transfersOf, hu]
  · intro env address codeRes nonceRes outRes now e
    rcases env with ⟨url, bl, wl⟩
    cases url with
    | none => rfl
    | some u =>
      by_cases hu : u = "" <;> cases codeRes <;> cases nonceRes <;>
        simp [WorkerA.runRiskEval, WorkerA.transfersOf, hu]
  · intro BADLIST ENSNAMES ENSADDRS DUST addr ens e outs ins now
    simp [WorkerB.checkCore, WorkerB.bytecodeSection, List.any_append]

theorem required_and_besteffort_lookup_policy_witness :
    WorkerA.isAddressFormat
        (JSPrim.jsTrim "0xaaaaaaaaaaaaaaaaaaaaaaaaaaaaaaaaaaaaaaaa") = true ∧
    WorkerA.handleCheck (some "0xaaaaaaaaaaaaaaaaaaaaaaaaaaaaaaaaaaaaaaaa") none
        ⟨some "u", none, none⟩ (.error "rpc_http_500") (.ok "0x0") (.ok ⟨some []⟩)
        (.ok ⟨some []⟩) 0 = .err 500 "server_error" ∧
    ((WorkerB.checkCore [] [] [] (.fin ⟨2, 100000⟩) "0xaa" "" (.error "rpc_http_500")
        [] [] 0).findings.any (fun f => f.label == "Unknown type")) = true :=
  ⟨by decide,
   required_and_besteffort_lookup_policy.1 "0xaaaaaaaaaaaaaaaaaaaaaaaaaaaaaaaaaaaaaaaa"
     ⟨some "u", none, none⟩ "rpc_http_500" (.ok "0x0") (.ok ⟨some []⟩) (.ok ⟨some []⟩) 0
     (by decide),
   required_and_besteffort_lookup_policy.2.2.2.2 [] [] [] (.fin ⟨2, 100000⟩) "0xaa" ""
     "rpc_http_500" [] [] 0⟩

/-- C3 counterexample: in the Worker.js engine a failed bytecode lookup does
not abort the evaluation: the `/check` route still returns a complete
assessment (HTTP 200 shape) containing the zero-weight `Unknown type`
finding, here together with `No history` for a total score of 22. -/
theorem bytecode_error_completes_workerB :
    WorkerB.fetchCheck ⟨some "u", none, none, [], none⟩
        (some "0xaaaaaaaaaaaaaaaaaaaaaaaaaaaaaaaaaaaaaaaa") none none
        (.error "rpc_http_500") (.ok ⟨some []⟩) (.ok ⟨some []⟩) 0 =
      .ok ⟨22, [⟨"Unknown type", "Could not verify contract/EOA.", "low"⟩,
                ⟨"No history", "No transactions found on Sepolia.", "medium"⟩]⟩ := by
  decide

theorem tierCount_append (a b : List WorkerB.Finding) :
    tierCount (a ++ b) = tierCount a + tierCount b := by
  simp [tierCount, List.filter_append]

theorem tierCount_blocklist (BADLIST : List String) (addr : String) :
    tierCount ((WorkerB.blocklistSection BADLIST addr).map Prod.fst) = 0 := by
  unfold WorkerB.blocklistSection
  split <;> rfl

theorem tierCount_ensAddr (ENSADDRS : List (String × String)) (addr : String) :
    tierCount ((WorkerB.ensAddrSection ENSADDRS addr).map Prod.fst) = 0 := by
  unfold WorkerB.ensAddrSection
  repeat' split
  all_goals rfl

theorem tierCount_bytecode (codeRes : Except String String) :
    tierCount ((WorkerB.bytecodeSection codeRes).map Prod.fst) = 0 := by
  unfold WorkerB.bytecodeSection
  repeat' split
  all_goals rfl

theorem tierCount_ensName (ENSNAMES : List String) (ens : String) :
    tierCount ((WorkerB.ensNameSection ENSNAMES ens).map Prod.fst) = 0 := by
  unfold WorkerB.ensNameSection
  split <;> rfl

theorem tierCount_lowActivity (n : Nat) :
    tierCount ((WorkerB.lowActivitySub n).map Prod.fst) = 0 := by
  unfold WorkerB.lowActivitySub
  split <;> rfl

theorem tierCount_inboundOnly (outs : List WorkerA.RawTransfer) :
    tierCount ((WorkerB.inboundOnlySub outs).map Prod.fst) = 0 := by
  unfold WorkerB.inboundOnlySub
  split <;> rfl

theorem tierCount_fanOut (outs : List WorkerA.RawTransfer) :
    tierCount ((WorkerB.fanOutSub outs).map Prod.fst) = 0 := by
  unfold WorkerB.fanOutSub
  dsimp only
  split <;> rfl

theorem tierCount_inboundBurst (outs ins : List WorkerA.RawTransfer) :
    tierCount ((WorkerB.inboundBurstSub outs ins).map Prod.fst) = 0 := by
  unfold WorkerB.inboundBurstSub
  dsimp only
  split <;> rfl

theorem tierCount_dustingMedian (DUST : JSPrim.JSNum) (ins : List WorkerA.RawTransfer) :
    tierCount ((WorkerB.dustingMedianSub DUST ins).map Prod.fst) = 0 := by
  unfold WorkerB.dustingMedianSub
  dsimp only
  repeat' split
  all_goals rfl

theorem tierCount_dormant (d : Option JSPrim.JQ) :
    tierCount ((WorkerB.dormantSub d).map Prod.fst) = 0 := by
  unfold WorkerB.dormantSub
  split <;> rfl

theorem tierCount_ageTier_le_one (d : Option JSPrim.JQ) :
    tierCount ((WorkerB.ageTierSub d).map Prod.fst) ≤ 1 := by
  unfold WorkerB.ageTierSub
  repeat' split
  all_goals decide

theorem tierCount_history_le_one (DUST : JSPrim.JSNum) (outs ins : List WorkerA.RawTransfer)
    (now : Int) :
    tierCount ((WorkerB.historySection DUST outs ins now).map Prod.fst) ≤ 1 := by
  unfold WorkerB.historySection
  dsimp only
  split
  · decide
  · simp only [List.map_append, tierCount_append, tierCount_lowActivity,
      tierCount_inboundOnly, tierCount_fanOut, tierCount_inboundBurst,
      tierCount_dustingMedian, tierCount_dormant]
    have := tierCount_ageTier_le_one (WorkerB.daysSince now
      (WorkerB.tminOf (List.map WorkerB.recentMs outs ++ List.map WorkerB.recentMs ins)))
    omega

/-- C5: in the Worker.js engine the `New`/`Newish`/`Recent` age tiers come
from a single `if`/`else if` cascade, so at most one of them appears in any
evaluation; and when the total transfer count is zero the `No history`
finding fires and no age tier fires at all. -/
theorem age_tiers_exclusive (BADLIST ENSNAMES : List String)
    (ENSADDRS : List (String × String)) (DUST : JSPrim.JSNum) (addr ens : String)
    (codeRes : Except String String) (outs ins : List WorkerA.RawTransfer) (now : Int) :
    tierCount (WorkerB.checkCore BADLIST ENSNAMES ENSADDRS DUST addr ens codeRes outs ins
      now).findings ≤ 1 ∧
    (outs = [] → ins = [] →
      (⟨"No history", "No transactions found on Sepolia.", "medium"⟩ : WorkerB.Finding) ∈
        (WorkerB.checkCore BADLIST ENSNAMES ENSADDRS DUST addr ens codeRes outs ins
          now).findings ∧
      tierCount (WorkerB.checkCore BADLIST ENSNAMES ENSADDRS DUST addr ens codeRes outs ins
        now).findings = 0) := by
  have hf : (WorkerB.checkCore BADLIST ENSNAMES ENSADDRS DUST addr ens codeRes outs ins
      now).findings =
      (WorkerB.blocklistSection BADLIST addr ++ WorkerB.ensAddrSection ENSADDRS addr ++
        WorkerB.bytecodeSection codeRes ++ WorkerB.historySection DUST outs ins now ++
        WorkerB.ensNameSection ENSNAMES ens).map Prod.fst := rfl
  constructor
  · rw [hf]
    simp only [List.map_append, tierCount_append]
    rw [tierCount_blocklist, tierCount_ensAddr, tierCount_bytecode, tierCount_ensName]
    have := tierCount_history_le_one DUST outs ins now
    omega
  · intro ho hi
    subst ho hi
    have hh : WorkerB.historySection DUST [] [] now =
        [(⟨"No history", "No transactions found on Sepolia.", "medium"⟩, 22)] := rfl
    constructor
    · rw [hf, hh]
      simp [List.mem_append]
    · rw [hf, hh]
      simp only [List.map_append, tierCount_append]
      rw [tierCount_blocklist, tierCount_ensAddr, tierCount_bytecode, tierCount_ensName]
      rfl

theorem age_tiers_exclusive_witness :
    tierCount (WorkerB.checkCore [] [] [] (.fin ⟨2, 100000⟩) "0xaa" "" (.ok "0x")
      [] [] 0).findings ≤ 1 ∧
    (⟨"No history", "No transactions found on Sepolia.", "medium"⟩ : WorkerB.Finding) ∈
      (WorkerB.checkCore [] [] [] (.fin ⟨2, 100000⟩) "0xaa" "" (.ok "0x") [] [] 0).findings ∧
    tierCount (WorkerB.checkCore [] [] [] (.fin ⟨2, 100000⟩) "0xaa" "" (.ok "0x")
      [] [] 0).findings = 0 :=
  ⟨(age_tiers_exclusive [] [] [] (.fin ⟨2, 100000⟩) "0xaa" "" (.ok "0x") [] [] 0).1,
   ((age_tiers_exclusive [] [] [] (.fin ⟨2, 100000⟩) "0xaa" "" (.ok "0x") [] [] 0).2 rfl rfl).1,
   ((age_tiers_exclusive [] [] [] (.fin ⟨2, 100000⟩) "0xaa" "" (.ok "0x") [] [] 0).2 rfl rfl).2⟩

/-- C6 (the code evaluated at the failing input): a non-empty transfer
history in which every `metadata.blockTimestamp` is absent gives `recentMs = 0`
for every record, hence `firstTs = 0` and `daysSinceFirst = null`; the JS
comparison `null < 1` is true, so the high-severity `New address` (+28)
finding fires — timestamp-0 records are not treated as unknown recency. -/
theorem unknown_timestamps_fire_new_address :
    ((WorkerB.checkCore [] [] [] (.fin ⟨2, 100000⟩) "0xaa" "" (.ok "0x")
        [] [⟨none, some "0xbb", none, .null, none⟩] 1750000000000).findings.map
        WorkerB.Finding.label) =
      ["EOA", "New address", "Low activity", "Inbound only"] ∧
    (WorkerB.checkCore [] [] [] (.fin ⟨2, 100000⟩) "0xaa" "" (.ok "0x")
        [] [⟨none, some "0xbb", none, .null, none⟩] 1750000000000).score = 44 :=
  ⟨by decide, by decide⟩

/-- C7 counterexample: a present but unparseable raw `value` (`"abc"`) is
normalized to `NaN`, not to `null` — `Number("abc")` is `NaN` and
`t?.value != null` only tests presence, so "null exactly when absent or
unparseable" fails in the unparseable case. -/
theorem unparseable_value_not_null :
    (WorkerA.normalizeTransfer ⟨some "h", some "0xAB", some "0xCD",
        .str "abc", none⟩).valueEth = some JSPrim.JSNum.nan ∧
    some JSPrim.JSNum.nan ≠ (none : Option JSPrim.JSNum) :=
  ⟨by decide, by decide⟩

/-- C7 (amended): `normalizeTransfer` is total (a function by construction):
it lowercases `from`/`to`; `valueEth` is `null` exactly when the raw value is
absent, a present numeric value stays that finite number, and a present
unparseable string becomes `NaN` (not `null`); `timestamp` is 0 exactly when
the ISO field is absent/empty, unparsable, or denotes the epoch instant. -/
theorem normalizeTransfer_total_spec (t : WorkerA.RawTransfer) :
    (WorkerA.normalizeTransfer t).fromAddr = JSPrim.jsToLowerCase (t.fromAddr.getD "") ∧
    (WorkerA.normalizeTransfer t).toAddr = JSPrim.jsToLowerCase (t.toAddr.getD "") ∧
    ((WorkerA.normalizeTransfer t).valueEth = none ↔ t.value = .null) ∧
    (∀ q, t.value = .num q → (WorkerA.normalizeTransfer t).valueEth = some (.fin q)) ∧
    ((WorkerA.normalizeTransfer t).timestamp = 0 ↔
      t.blockTimestamp = none ∨ t.blockTimestamp = some "" ∨
      ∃ b, t.blockTimestamp = some b ∧
        (JSPrim.jsDateParse b = none ∨ JSPrim.jsDateParse b = some 0)) := by
  obtain ⟨hh, fr, tw, vv, bb⟩ := t
  refine ⟨rfl, rfl, ?_, ?_, ?_⟩
  · cases vv <;> simp [WorkerA.normalizeTransfer]
  · intro q hq
    cases vv <;> simp_all [WorkerA.normalizeTransfer]
  · cases bb with
    | none => simp [WorkerA.normalizeTransfer]
    | some b =>
      by_cases hb : b = ""
      · subst hb
        simp [WorkerA.normalizeTransfer]
      · cases hdp : JSPrim.jsDateParse b with
        | none => simp [WorkerA.normalizeTransfer, hb, hdp]
        | some msv => simp [WorkerA.normalizeTransfer, hb, hdp]

theorem normalizeTransfer_total_spec_witness :
    (WorkerA.normalizeTransfer ⟨none, some "0xAB", some "0xCD", .num ⟨3, 2⟩,
        some "1970-01-02T00:00:00Z"⟩).valueEth = some (.fin ⟨3, 2⟩) ∧
    (WorkerA.normalizeTransfer ⟨none, some "0xAB", some "0xCD", .num ⟨3, 2⟩,
        some "1970-01-02T00:00:00Z"⟩).fromAddr = JSPrim.jsToLowerCase "0xAB" :=
  ⟨(normalizeTransfer_total_spec ⟨none, some "0xAB", some "0xCD", .num ⟨3, 2⟩,
      some "1970-01-02T00:00:00Z"⟩).2.2.2.1 ⟨3, 2⟩ rfl,
   (normalizeTransfer_total_spec ⟨none, some "0xAB", some "0xCD", .num ⟨3, 2⟩,
      some "1970-01-02T00:00:00Z"⟩).1⟩

theorem qlabel_blocklist (BADLIST : List String) (addr : String) :
    (WorkerA.blocklistFactors BADLIST addr).any
      (fun f => f.label == "Fresh funds → fast outflow") = false := by
  unfold WorkerA.blocklistFactors
  repeat' split
  all_goals rfl

theorem qlabel_contract (code : String) :
    (WorkerA.contractFactors code).any
      (fun f => f.label == "Fresh funds → fast outflow") = false := by
  unfold WorkerA.contractFactors
  repeat' split
  all_goals rfl

theorem qlabel_nonce (nonce : String) :
    (WorkerA.nonceFactors nonce).any
      (fun f => f.label == "Fresh funds → fast outflow") = false := by
  unfold WorkerA.nonceFactors
  dsimp only
  repeat' split
  all_goals rfl

theorem qlabel_burst (out : List WorkerA.Transfer) (now : Int) :
    (WorkerA.burstFactors out now).any
      (fun f => f.label == "Fresh funds → fast outflow") = false := by
  unfold WorkerA.burstFactors
  dsimp only
  repeat' split
  all_goals rfl

theorem qlabel_dusting (inn : List WorkerA.Transfer) :
    (WorkerA.dustingFactors inn).any
      (fun f => f.label == "Fresh funds → fast outflow") = false := by
  unfold WorkerA.dustingFactors
  dsimp only
  repeat' split
  all_goals rfl

theorem qlabel_repeated (out : List WorkerA.Transfer) :
    (WorkerA.repeatedFactors out).any
      (fun f => f.label == "Fresh funds → fast outflow") = false := by
  unfold WorkerA.repeatedFactors
  dsimp only
  repeat' split
  all_goals rfl

theorem qlabel_watch (DUST_WATCH : List String) (inn out : List WorkerA.Transfer) :
    (WorkerA.watchFactors DUST_WATCH inn out).any
      (fun f => f.label == "Fresh funds → fast outflow") = false := by
  unfold WorkerA.watchFactors
  repeat' split
  all_goals rfl

theorem qlabel_quickOut (inn out : List WorkerA.Transfer) :
    (WorkerA.quickOutFactors inn out).any
      (fun f => f.label == "Fresh funds → fast outflow") =
      WorkerA.freshInThenOut inn out (10 * 60 * 1000) := by
  unfold WorkerA.quickOutFactors
  split
  · rename_i h
    rw [h]
    rfl
  · rename_i h
    rw [Bool.not_eq_true] at h
    rw [h]
    rfl

/-- C8 (amended): for a non-empty inbound list and a non-empty outbound list
sorted descending by timestamp, `freshInThenOut` fires iff the MOST RECENT
outbound transfer (the head of the descending list) is at-or-after the most
recent inbound transfer's timestamp and within the window — `find` on the
descending list returns the newest qualifying outbound, so an older outbound
inside the window does not fire the finding when the newest qualifying one is
outside it (see the counterexample).  In `runRiskEval` the high-severity
factor fires exactly when `freshInThenOut` is true with the 10-minute window. -/
theorem freshInThenOut_head_only (latestIn : WorkerA.Transfer)
    (restIn : List WorkerA.Transfer) (o : WorkerA.Transfer) (os : List WorkerA.Transfer)
    (w : Int) (hsorted : (o :: os).Pairwise (fun a b => b.timestamp ≤ a.timestamp)) :
    (WorkerA.freshInThenOut (latestIn :: restIn) (o :: os) w = true ↔
      latestIn.timestamp ≤ o.timestamp ∧ o.timestamp - latestIn.timestamp ≤ w) ∧
    (∀ BADLIST DUST_WATCH address code nonce now,
      ((WorkerA.runRiskEvalCore BADLIST DUST_WATCH address code nonce (o :: os)
          (latestIn :: restIn) now).factors.any
        (fun f => f.label == "Fresh funds → fast outflow")) =
        WorkerA.freshInThenOut (latestIn :: restIn) (o :: os) (10 * 60 * 1000)) := by
  have hos : ∀ x ∈ os, x.timestamp ≤ o.timestamp := (List.pairwise_cons.mp hsorted).1
  constructor
  · simp only [WorkerA.freshInThenOut]
    by_cases hle : latestIn.timestamp ≤ o.timestamp
    · rw [List.find?_cons_of_pos os (by simpa using hle)]
      simp [hle]
    · have hnone : List.find? (fun o' => decide (o'.timestamp ≥ latestIn.timestamp)) os =
          none := by
        rw [List.find?_eq_none]
        intro x hx
        simp only [decide_eq_true_eq]
        have := hos x hx
        omega
      rw [List.find?_cons_of_neg os (by simpa using hle), hnone]
      simp [hle]
  · intro BADLIST DUST_WATCH address code nonce now
    show ((WorkerA.evalFactors BADLIST DUST_WATCH address code nonce (o :: os)
        (latestIn :: restIn) now).any (fun f => f.label == "Fresh funds → fast outflow")) = _
    unfold WorkerA.evalFactors
    simp only [List.any_append, qlabel_blocklist, qlabel_contract, qlabel_nonce, qlabel_burst,
      qlabel_dusting, qlabel_repeated, qlabel_watch, qlabel_quickOut, Bool.false_or,
      Bool.or_false]

theorem freshInThenOut_head_only_witness :
    (WorkerA.freshInThenOut [mkT 0] [mkT 300000] 600000 = true ↔
      (mkT 0).timestamp ≤ (mkT 300000).timestamp ∧
      (mkT 300000).timestamp - (mkT 0).timestamp ≤ 600000) ∧
    ((WorkerA.runRiskEvalCore [] [] "0xaa" "0x" "0x5" [mkT 300000] [mkT 0] 0).factors.any
      (fun f => f.label == "Fresh funds → fast outflow")) =
      WorkerA.freshInThenOut [mkT 0] [mkT 300000] (10 * 60 * 1000) :=
  ⟨(freshInThenOut_head_only (mkT 0) [] (mkT 300000) [] 600000 (by simp)).1,
   (freshInThenOut_head_only (mkT 0) [] (mkT 300000) [] 600000
      (by simp)).2 [] [] "0xaa" "0x" "0x5" 0⟩

/-- C8 counterexample: inbound at time 0; outbound list (descending)
`[20 min, 5 min]`.  Some outbound (the 5-minute one) lies within the
10-minute window at-or-after the most recent inbound, but `find` returns the
newest qualifying outbound (20 min), which is outside the window, so the
finding does not fire — refuting "fires iff some outbound is in the window". -/
theorem window_outbound_missed :
    (mkT 300000).timestamp ≤ (mkT 1200000).timestamp ∧
    (List.any [mkT 1200000, mkT 300000] (fun o =>
      decide ((mkT 0).timestamp ≤ o.timestamp) &&
      decide (o.timestamp - (mkT 0).timestamp ≤ 600000))) = true ∧
    WorkerA.freshInThenOut [mkT 0] [mkT 1200000, mkT 300000] 600000 = false :=
  ⟨by decide, by decide, by decide⟩
